import Mathlib

/-!
# LBR SPI driver (STM32L4): shallow embedding and verified properties

The embedding follows `common/drivers/platform/stm32l4/st_spi.{h,cc}` and
`common/core/periph/chip_select/cs_gpio.{h,cc}`.

* Registers are natural numbers; every store to a 32-bit register is reduced
  modulo `2^32`, every access to the data register through the
  `volatile uint8_t*` alias is reduced modulo `2^8`.
* `CR1` and `CR2` behave as plain memory cells.  `SR` and `DR` are volatile:
  they are served by a mocked peripheral `Mock σ` with an internal state `σ`
  that may change on every access.
* Every register access is appended to a chronological log.
* The unbounded polling loops `while (...) {}` take a bound `fuel` on the
  number of iterations of each single loop; `none` means that some loop did
  not leave within that many polls.
* A buffer pointer is modelled by the memory that starts at it, a function
  from the byte offset to the byte stored there.
-/

namespace LBR

/-! ## Register block -/

/-- The registers of `SPI_TypeDef` that the driver touches. -/
inductive Reg
  | CR1 | CR2 | SR | DR
  deriving DecidableEq, Repr

/-- One access to a peripheral register, with the value read or stored. -/
inductive Access
  | read (r : Reg) (v : Nat)
  | write (r : Reg) (v : Nat)
  deriving DecidableEq, Repr

/-- A mocked peripheral: how the volatile registers `SR` and `DR` answer.
Reading `SR` or `DR` returns a value and a new internal state, writing a byte
to `DR` gives a new internal state. -/
structure Mock (σ : Type) where
  readSR : σ → Nat × σ
  writeDR : Nat → σ → σ
  readDR : σ → Nat × σ

/-- The register block `SPI_TypeDef` the driver points to: the two control
registers, the internal state of the peripheral behind `SR` and `DR`, and the
log of all register accesses made so far (oldest first). -/
structure SPI_TypeDef (σ : Type) where
  CR1 : Nat
  CR2 : Nat
  hw : σ
  log : List Access

/-- Truncation to `uint32_t`. -/
def u32 (x : Nat) : Nat := x % 2 ^ 32

/-- Truncation to `uint8_t`. -/
def u8 (x : Nat) : Nat := x % 2 ^ 8

/-- A byte, the value range of `uint8_t`. -/
abbrev Byte : Type := Fin 256

/-- Bitwise complement `~x` of a `uint32_t`. -/
def not32 (x : Nat) : Nat := 0xFFFFFFFF ^^^ u32 x

/-! ### Bit masks of the vendor header -/

/-- Modelled from the spec: the vendor header `stm32l476xx.h` is not part of
the sources; `SPI_CR1_MSTR` is the master-mode bit, bit 2 of `CR1`. -/
def SPI_CR1_MSTR : Nat := 1 <<< 2

/-- Modelled from the spec: `SPI_CR1_SPE` (header `stm32l476xx.h` missing) is
the peripheral-enable bit, bit 6 of `CR1`. -/
def SPI_CR1_SPE : Nat := 1 <<< 6

/-- Modelled from the spec: `SPI_CR1_SSI` (header `stm32l476xx.h` missing) is
the internal-select bit, bit 8 of `CR1`. -/
def SPI_CR1_SSI : Nat := 1 <<< 8

/-- Modelled from the spec: `SPI_CR1_SSM` (header `stm32l476xx.h` missing) is
the software-slave-management bit, bit 9 of `CR1`. -/
def SPI_CR1_SSM : Nat := 1 <<< 9

/-- Modelled from the spec: `SPI_CR1_RXONLY` (header `stm32l476xx.h` missing)
is the receive-only bit, bit 10 of `CR1`. -/
def SPI_CR1_RXONLY : Nat := 1 <<< 10

/-- Modelled from the spec: `SPI_CR2_DS_0` (header `stm32l476xx.h` missing) is
bit 0 of the data-size field `DS[3:0]`, bit 8 of `CR2`. -/
def SPI_CR2_DS_0 : Nat := 1 <<< 8

/-- Modelled from the spec: `SPI_CR2_DS_1` (header `stm32l476xx.h` missing) is
bit 1 of the data-size field, bit 9 of `CR2`. -/
def SPI_CR2_DS_1 : Nat := 1 <<< 9

/-- Modelled from the spec: `SPI_CR2_DS_2` (header `stm32l476xx.h` missing) is
bit 2 of the data-size field, bit 10 of `CR2`. -/
def SPI_CR2_DS_2 : Nat := 1 <<< 10

/-- Modelled from the spec: `SPI_SR_RXNE` (header `stm32l476xx.h` missing) is
the receive-not-empty flag, bit 0 of `SR`. -/
def SPI_SR_RXNE : Nat := 1 <<< 0

/-- Modelled from the spec: `SPI_SR_TXE` (header `stm32l476xx.h` missing) is
the transmit-empty flag, bit 1 of `SR`. -/
def SPI_SR_TXE : Nat := 1 <<< 1

/-- Modelled from the spec: `SPI_SR_BSY` (header `stm32l476xx.h` missing) is
the busy flag, bit 7 of `SR`. -/
def SPI_SR_BSY : Nat := 1 <<< 7

/-! ### Primitive register accesses -/

namespace SPI_TypeDef

variable {σ : Type}

/-- Load from `CR1` or `CR2`: `SR` and `DR` are not memory cells and are read
through the mock, see `readSR` and `readDR`. -/
def load (r : Reg) (s : SPI_TypeDef σ) : Nat × SPI_TypeDef σ :=
  match r with
  | Reg.CR1 => (s.CR1, { s with log := s.log ++ [Access.read Reg.CR1 s.CR1] })
  | Reg.CR2 => (s.CR2, { s with log := s.log ++ [Access.read Reg.CR2 s.CR2] })
  | Reg.SR => (0, s)
  | Reg.DR => (0, s)

/-- Store of a `uint32_t` to `CR1` or `CR2`. -/
def store (r : Reg) (v : Nat) (s : SPI_TypeDef σ) : SPI_TypeDef σ :=
  match r with
  | Reg.CR1 => { s with CR1 := u32 v, log := s.log ++ [Access.write Reg.CR1 (u32 v)] }
  | Reg.CR2 => { s with CR2 := u32 v, log := s.log ++ [Access.write Reg.CR2 (u32 v)] }
  | Reg.SR => s
  | Reg.DR => s

/-- The load `instance->SR`. -/
def readSR (m : Mock σ) (s : SPI_TypeDef σ) : Nat × SPI_TypeDef σ :=
  let r := m.readSR s.hw
  (r.1, { s with hw := r.2, log := s.log ++ [Access.read Reg.SR r.1] })

/-- The byte store `*(volatile uint8_t*)&instance->DR = b`. -/
def writeDR (m : Mock σ) (b : Byte) (s : SPI_TypeDef σ) : SPI_TypeDef σ :=
  { s with hw := m.writeDR b.val s.hw, log := s.log ++ [Access.write Reg.DR b.val] }

/-- The byte load `*(volatile uint8_t*)&instance->DR`. -/
def readDR (m : Mock σ) (s : SPI_TypeDef σ) : Byte × SPI_TypeDef σ :=
  let r := m.readDR s.hw
  (⟨u8 r.1, Nat.mod_lt _ (by decide)⟩,
    { s with hw := r.2, log := s.log ++ [Access.read Reg.DR (u8 r.1)] })

end SPI_TypeDef

/-! ## Settings -/

namespace Stml4

/-- Ordinals of `enum class SpiBaudRate : uint8_t`. -/
def SpiBaudRate.FPCLK_2 : Byte := 0
def SpiBaudRate.FPCLK_4 : Byte := 1
def SpiBaudRate.FPCLK_8 : Byte := 2
def SpiBaudRate.FPCLK_16 : Byte := 3
def SpiBaudRate.FPCLK_32 : Byte := 4
def SpiBaudRate.FPCLK_64 : Byte := 5
def SpiBaudRate.FPCLK_128 : Byte := 6
def SpiBaudRate.FPCLK_256 : Byte := 7

/-- Ordinals of `enum class SpiBusMode : uint8_t`; `MODE1` is CPOL=0, CPHA=0. -/
def SpiBusMode.MODE1 : Byte := 0
/-- CPOL=0, CPHA=1. -/
def SpiBusMode.MODE2 : Byte := 1
/-- CPOL=1, CPHA=0. -/
def SpiBusMode.MODE3 : Byte := 2
/-- CPOL=1, CPHA=1. -/
def SpiBusMode.MODE4 : Byte := 3

/-- Ordinals of `enum class SpiBitOrder : uint8_t`. -/
def SpiBitOrder.MSB : Byte := 0
def SpiBitOrder.LSB : Byte := 1

/-- Ordinals of `enum class SpiRxThreshold : uint8_t`. -/
def SpiRxThreshold.FIFO_16bit : Byte := 0
def SpiRxThreshold.FIFO_8bit : Byte := 1

/-- The settings `StSpiSettings`.  Each field holds the ordinal of its
`uint8_t`-backed enumeration; a cast can put any byte there, also one that is
no enumerator. -/
structure StSpiSettings where
  baudrate : Byte
  busmode : Byte
  order : Byte
  threshold : Byte
  deriving DecidableEq, Repr

/-- The driver object `HwSpi`: the register block it points to and its copy
of the settings. -/
structure HwSpi (σ : Type) where
  inst : SPI_TypeDef σ
  settings : StSpiSettings

variable {σ : Type}

/-- `HwSpi::SetReg`: one load of the register, one store of
`(*reg & ~(mask << bit_num)) | ((enum_val & mask) << bit_num)` with
`mask = (1U << bit_length) - 1U`, the subtraction being the one of
`uint32_t`. -/
def HwSpi.SetReg (reg : Reg) (enum_val bit_num bit_length : Nat)
    (s : SPI_TypeDef σ) : SPI_TypeDef σ :=
  let mask := u32 (u32 (1 <<< bit_length) + (2 ^ 32 - 1))
  let r := s.load reg
  r.2.store reg
    ((r.1 &&& not32 (mask <<< bit_num)) ||| u32 ((enum_val &&& mask) <<< bit_num))

/-- The value that `HwSpi::SetReg` leaves in a register holding `r`. -/
def setField (r enum_val bit_num bit_length : Nat) : Nat :=
  u32 ((r &&& not32 (u32 (u32 (1 <<< bit_length) + (2 ^ 32 - 1)) <<< bit_num)) |||
    u32 ((enum_val &&& u32 (u32 (1 <<< bit_length) + (2 ^ 32 - 1))) <<< bit_num))

/-- `ValidateSpi`: the result and the driver object after the call. -/
def ValidateSpi (spi : HwSpi σ) : Bool × HwSpi σ :=
  if spi.settings.baudrate.val > 7 then (false, spi)
  else if spi.settings.busmode.val > 3 then (false, spi)
  else if spi.settings.order.val > 1 then (false, spi)
  else if spi.settings.threshold.val > 1 then (false, spi)
  else (true, spi)

/-- The statement `*reg |= bits`. -/
def orReg (reg : Reg) (bits : Nat) (s : SPI_TypeDef σ) : SPI_TypeDef σ :=
  let r := s.load reg
  r.2.store reg (r.1 ||| bits)

/-- The statement `*reg &= ~bits`. -/
def clearReg (reg : Reg) (bits : Nat) (s : SPI_TypeDef σ) : SPI_TypeDef σ :=
  let r := s.load reg
  r.2.store reg (r.1 &&& not32 bits)

/-- `HwSpi::Init`. -/
def HwSpi.Init (self : HwSpi σ) : Bool × HwSpi σ :=
  let s0 := self.inst
  let s1 := orReg Reg.CR1 SPI_CR1_MSTR s0
  let s2 := clearReg Reg.CR1 SPI_CR1_RXONLY s1
  let s3 := HwSpi.SetReg Reg.CR1 self.settings.baudrate.val 3 3 s2
  let s4 := HwSpi.SetReg Reg.CR1 self.settings.busmode.val 0 2 s3
  let s5 := HwSpi.SetReg Reg.CR1 self.settings.order.val 7 1 s4
  let s6 := HwSpi.SetReg Reg.CR2 self.settings.threshold.val 12 1 s5
  let s7 := orReg Reg.CR2 (SPI_CR2_DS_0 ||| SPI_CR2_DS_1 ||| SPI_CR2_DS_2) s6
  let s8 := orReg Reg.CR1 (SPI_CR1_SSM ||| SPI_CR1_SSI) s7
  let s9 := orReg Reg.CR1 SPI_CR1_SPE s8
  (true, { self with inst := s9 })

/-! ## Polled transfers -/

/-- The loop `while (!(instance->SR & flag)) {}`, at most `fuel` polls. -/
def waitSet (m : Mock σ) (flag : Nat) : Nat → SPI_TypeDef σ → Option (SPI_TypeDef σ)
  | 0, _ => none
  | fuel + 1, s =>
    let r := s.readSR m
    if r.1 &&& flag ≠ 0 then some r.2 else waitSet m flag fuel r.2

/-- The loop `while (instance->SR & flag) {}`, at most `fuel` polls. -/
def waitClear (m : Mock σ) (flag : Nat) : Nat → SPI_TypeDef σ → Option (SPI_TypeDef σ)
  | 0, _ => none
  | fuel + 1, s =>
    let r := s.readSR m
    if r.1 &&& flag ≠ 0 then waitClear m flag fuel r.2 else some r.2

/-- The guard `!(instance->CR1 & SPI_CR1_SPE) || (instance->SR & SPI_SR_BSY)`
of the three operations; `||` does not load `SR` when its left side holds. -/
def notReady (m : Mock σ) (s : SPI_TypeDef σ) : Bool × SPI_TypeDef σ :=
  let c := s.load Reg.CR1
  if c.1 &&& SPI_CR1_SPE = 0 then (true, c.2)
  else
    let r := c.2.readSR m
    (decide (r.1 &&& SPI_SR_BSY ≠ 0), r.2)

/-- A buffer `uint8_t*`: the byte at each offset from the pointer. -/
abbrev Buffer : Type := Nat → Byte

/-- The store `buf[i] = b`. -/
def Buffer.set (buf : Buffer) (i : Nat) (b : Byte) : Buffer :=
  fun j => if j = i then b else buf j

/-- The `for` loop of `HwSpi::Read`, with `k` iterations left at index `i`. -/
def readLoop (m : Mock σ) (fuel : Nat) :
    Nat → Nat → SPI_TypeDef σ → Buffer → Option (SPI_TypeDef σ × Buffer)
  | 0, _, s, rx_data => some (s, rx_data)
  | k + 1, i, s, rx_data =>
    match waitSet m SPI_SR_TXE fuel s with
    | none => none
    | some s1 =>
      match waitSet m SPI_SR_RXNE fuel (s1.writeDR m 0) with
      | none => none
      | some s3 =>
        let r := s3.readDR m
        readLoop m fuel k (i + 1) r.2 (rx_data.set i r.1)

/-- The `for` loop of `HwSpi::Write`, with `k` iterations left at index `i`. -/
def writeLoop (m : Mock σ) (fuel : Nat) (tx_data : Buffer) :
    Nat → Nat → SPI_TypeDef σ → Option (SPI_TypeDef σ)
  | 0, _, s => some s
  | k + 1, i, s =>
    match waitSet m SPI_SR_TXE fuel s with
    | none => none
    | some s1 =>
      match waitSet m SPI_SR_RXNE fuel (s1.writeDR m (tx_data i)) with
      | none => none
      | some s3 => writeLoop m fuel tx_data k (i + 1) (s3.readDR m).2

/-- The `for` loop of `HwSpi::Transfer`, with `k` iterations left at index
`i`. -/
def transferLoop (m : Mock σ) (fuel : Nat) (tx_data : Buffer) :
    Nat → Nat → SPI_TypeDef σ → Buffer → Option (SPI_TypeDef σ × Buffer)
  | 0, _, s, rx_data => some (s, rx_data)
  | k + 1, i, s, rx_data =>
    match waitSet m SPI_SR_TXE fuel s with
    | none => none
    | some s1 =>
      match waitSet m SPI_SR_RXNE fuel (s1.writeDR m (tx_data i)) with
      | none => none
      | some s3 =>
        let r := s3.readDR m
        transferLoop m fuel tx_data k (i + 1) r.2 (rx_data.set i r.1)

/-- `HwSpi::Read(rx_data, buffer_len)`: the result, the driver and the receive
buffer after the call, or `none` when a polling loop does not end. -/
def HwSpi.Read (m : Mock σ) (fuel : Nat) (self : HwSpi σ) (rx_data : Buffer)
    (buffer_len : Nat) : Option (Bool × HwSpi σ × Buffer) :=
  let g := notReady m self.inst
  if g.1 then some (false, { self with inst := g.2 }, rx_data)
  else
    match readLoop m fuel buffer_len 0 g.2 rx_data with
    | none => none
    | some (s, rx) =>
      match waitClear m SPI_SR_BSY fuel s with
      | none => none
      | some s1 => some (true, { self with inst := s1 }, rx)

/-- `HwSpi::Write(tx_data, buffer_len)`: the result and the driver after the
call, or `none` when a polling loop does not end. -/
def HwSpi.Write (m : Mock σ) (fuel : Nat) (self : HwSpi σ) (tx_data : Buffer)
    (buffer_len : Nat) : Option (Bool × HwSpi σ) :=
  let g := notReady m self.inst
  if g.1 then some (false, { self with inst := g.2 })
  else
    match writeLoop m fuel tx_data buffer_len 0 g.2 with
    | none => none
    | some s =>
      match waitClear m SPI_SR_BSY fuel s with
      | none => none
      | some s1 => some (true, { self with inst := s1 })

/-- `HwSpi::Transfer(tx_data, rx_data, buffer_len)`: the result, the driver
and the receive buffer after the call, or `none` when a polling loop does not
end. -/
def HwSpi.Transfer (m : Mock σ) (fuel : Nat) (self : HwSpi σ) (tx_data rx_data : Buffer)
    (buffer_len : Nat) : Option (Bool × HwSpi σ × Buffer) :=
  let g := notReady m self.inst
  if g.1 then some (false, { self with inst := g.2 }, rx_data)
  else
    match transferLoop m fuel tx_data buffer_len 0 g.2 rx_data with
    | none => none
    | some (s, rx) =>
      match waitClear m SPI_SR_BSY fuel s with
      | none => none
      | some s1 => some (true, { self with inst := s1 }, rx)

/-- The parameterless override `HwSpi::Read()`. -/
def HwSpi.ReadNoArg (self : HwSpi σ) : Bool × HwSpi σ := (false, self)

/-- The parameterless override `HwSpi::Write()`. -/
def HwSpi.WriteNoArg (self : HwSpi σ) : Bool × HwSpi σ := (false, self)

/-- The parameterless override `HwSpi::Transfer()`. -/
def HwSpi.TransferNoArg (self : HwSpi σ) : Bool × HwSpi σ := (false, self)

/-! ## Observations on a run -/

/-- The value of `SR` at poll number `k` (counted from 0) when the mock in
state `h` is polled and nothing else is accessed. -/
def pollSR (m : Mock σ) : Nat → σ → Nat
  | 0, h => (m.readSR h).1
  | k + 1, h => pollSR m k (m.readSR h).2

/-- Whether an access is one to the data register. -/
def isDR : Access → Bool
  | Access.read Reg.DR _ => true
  | Access.write Reg.DR _ => true
  | _ => false

/-- The accesses to the data register in a log, in their order. -/
def drLog (log : List Access) : List Access := log.filter isDR

/-- The data-register accesses of `k` byte exchanges from index `i` on: for
each index the store of the byte of `tx`, then the load of the byte that `rx`
holds at that index. -/
def exchanges (tx rx : Buffer) : Nat → Nat → List Access
  | _, 0 => []
  | i, k + 1 =>
    Access.write Reg.DR (tx i).val :: Access.read Reg.DR (rx i).val ::
      exchanges tx rx (i + 1) k

/-- The buffer that holds the bytes of a list, and zero after them. -/
def Buffer.ofList (l : List Byte) : Buffer := fun i => l.getD i 0

/-! ## A mocked SPI flash -/

/-- Internal state of the mocked flash: whether a byte is being shifted,
whether the receive register holds a byte, that byte, and the bytes the flash
will answer to the next exchanges. -/
structure FlashState where
  shifting : Bool
  rxne : Bool
  rx : Nat
  replies : List Nat
  deriving DecidableEq, Repr

/-- The mocked flash.  `TXE` is always set; a byte stored to `DR` is shifted
until the next poll of `SR`, which reports `BSY`; after that `RXNE` is set
until the answer is loaded from `DR`. -/
def flashMock : Mock FlashState where
  readSR h :=
    (SPI_SR_TXE ||| (if h.shifting then SPI_SR_BSY else if h.rxne then SPI_SR_RXNE else 0),
      { h with shifting := false })
  writeDR _ h :=
    { shifting := true, rxne := true, rx := h.replies.headD 0xFF, replies := h.replies.tail }
  readDR h := (h.rx, { h with rxne := false })

/-- The driver of the test application before `Init`: registers at their
reset values, settings of `BSP_Init`, and a flash that answers a dummy byte
and then the identifier `EF 40 18 12 34`. -/
def bspSpi : HwSpi FlashState :=
  { inst := { CR1 := 0, CR2 := 0x0700,
              hw := { shifting := false, rxne := false, rx := 0,
                      replies := [0xA5, 0xEF, 0x40, 0x18, 0x12, 0x34] },
              log := [] },
    settings := { baudrate := SpiBaudRate.FPCLK_16, busmode := SpiBusMode.MODE1,
                  order := SpiBitOrder.MSB, threshold := SpiRxThreshold.FIFO_8bit } }

/-- A driver over the mocked flash whose peripheral is enabled and idle: `CR1`
holds `SPE` only, nothing was accessed yet. -/
def readySpi : HwSpi FlashState :=
  { bspSpi with inst := { bspSpi.inst with CR1 := 0x0040 } }

/-- The transmit buffer `tx_buf` of `main`. -/
def tx_buf : Buffer := Buffer.ofList [0x9F, 0x00, 0x00, 0x00, 0x00, 0x00]

end Stml4

/-! ## Chip select -/

/-- Modelled from the spec: the digital-pin abstraction `Gpio` (`gpio.h`) is
not part of the sources.  A pin has a logic level; the model also keeps the
levels written to it, oldest first. -/
structure Gpio where
  level : Bool
  writes : List Bool
  deriving DecidableEq, Repr

/-- Modelled from the spec: `Gpio::set` (`gpio.h` missing) drives the pin to
the given logic level. -/
def Gpio.set (p : Gpio) (v : Bool) : Gpio :=
  { level := v, writes := p.writes ++ [v] }

/-- The strobe `GpioChipSelect`, holding its pin. -/
structure GpioChipSelect where
  cs_pin : Gpio
  deriving DecidableEq, Repr

/-- `GpioChipSelect::ChipSelectEnable`: `cs_pin.set(0)`. -/
def GpioChipSelect.ChipSelectEnable (self : GpioChipSelect) : GpioChipSelect :=
  { self with cs_pin := self.cs_pin.set false }

/-- `GpioChipSelect::ChipSelectDisable`: `cs_pin.set(1)`. -/
def GpioChipSelect.ChipSelectDisable (self : GpioChipSelect) : GpioChipSelect :=
  { self with cs_pin := self.cs_pin.set true }


/-! ## Bit-level lemmas -/

namespace Stml4

variable {σ : Type}

theorem u32_testBit (x i : Nat) : (u32 x).testBit i = (decide (i < 32) && x.testBit i) := by
  show (x % 2 ^ 32).testBit i = _
  rw [Nat.testBit_mod_two_pow]

theorem not32_testBit (x i : Nat) :
    (not32 x).testBit i = (decide (i < 32) && !x.testBit i) := by
  show ((2 ^ 32 - 1) ^^^ u32 x).testBit i = _
  rw [Nat.testBit_xor, u32_testBit, Nat.testBit_two_pow_sub_one]
  by_cases h : i < 32 <;> simp [h]

theorem bit_testBit (k i : Nat) : (1 <<< k).testBit i = decide (k = i) := by
  rw [Nat.one_shiftLeft, Nat.testBit_two_pow]

theorem mask_testBit (len i : Nat) (hlen : len < 32) :
    (u32 (u32 (1 <<< len) + (2 ^ 32 - 1))).testBit i = decide (i < len) := by
  have h1 : u32 (1 <<< len) = 2 ^ len := by
    rw [Nat.one_shiftLeft]
    exact Nat.mod_eq_of_lt (Nat.pow_lt_pow_right (by norm_num) hlen)
  have hpos : 0 < 2 ^ len := Nat.pow_pos (by norm_num)
  have hlt : 2 ^ len < 2 ^ 32 := Nat.pow_lt_pow_right (by norm_num) hlen
  have h2 : u32 (2 ^ len + (2 ^ 32 - 1)) = 2 ^ len - 1 := by
    show (2 ^ len + (2 ^ 32 - 1)) % 2 ^ 32 = 2 ^ len - 1
    have e : 2 ^ len + (2 ^ 32 - 1) = (2 ^ len - 1) + 2 ^ 32 := by omega
    rw [e, Nat.add_mod_right]
    exact Nat.mod_eq_of_lt (by omega)
  rw [h1, h2, Nat.testBit_two_pow_sub_one]

/-- The value `HwSpi::SetReg` stores for the register value `r`. -/
theorem setField_testBit (r v pos len i : Nat) (hlen : len < 32) :
    (setField r v pos len).testBit i =
      (decide (i < 32) &&
        (if pos ≤ i ∧ i < pos + len then v.testBit (i - pos) else r.testBit i)) := by
  unfold setField
  simp only [u32_testBit, Nat.testBit_lor, Nat.testBit_land, not32_testBit,
    Nat.testBit_shiftLeft, mask_testBit _ _ hlen]
  by_cases h32 : i < 32 <;> by_cases hp : pos ≤ i <;> by_cases hl : i - pos < len <;>
    by_cases hl2 : i < pos + len <;> first | omega | simp [h32, hp, hl, hl2]

theorem field_eq (x v pos len : Nat) (hv : v < 2 ^ len)
    (h : ∀ j, j < len → x.testBit (pos + j) = v.testBit j) :
    (x >>> pos) % 2 ^ len = v := by
  apply Nat.eq_of_testBit_eq
  intro j
  rw [Nat.testBit_mod_two_pow, Nat.testBit_shiftRight]
  by_cases hj : j < len
  · simp [hj, h j hj]
  · have : v < 2 ^ j := lt_of_lt_of_le hv (Nat.pow_le_pow_right (by norm_num) (by omega))
    simp [hj, Nat.testBit_lt_two_pow this]

theorem Init_CR1 (self : HwSpi σ) :
    (HwSpi.Init self).2.inst.CR1 =
      u32 (u32 (setField (setField (setField
        (u32 (u32 (self.inst.CR1 ||| SPI_CR1_MSTR) &&& not32 SPI_CR1_RXONLY))
        self.settings.baudrate.val 3 3) self.settings.busmode.val 0 2)
        self.settings.order.val 7 1
        ||| (SPI_CR1_SSM ||| SPI_CR1_SSI)) ||| SPI_CR1_SPE) := rfl

theorem Init_CR2 (self : HwSpi σ) :
    (HwSpi.Init self).2.inst.CR2 =
      u32 (setField self.inst.CR2 self.settings.threshold.val 12 1
        ||| (SPI_CR2_DS_0 ||| SPI_CR2_DS_1 ||| SPI_CR2_DS_2)) := rfl

theorem Init_CR1_testBit (self : HwSpi σ) (i : Nat) :
    (HwSpi.Init self).2.inst.CR1.testBit i =
      (decide (i < 32) &&
        (if i = 2 ∨ i = 6 ∨ i = 8 ∨ i = 9 then true
         else if i = 10 then false
         else if i = 7 then self.settings.order.val.testBit 0
         else if i < 2 then self.settings.busmode.val.testBit i
         else if i < 6 then self.settings.baudrate.val.testBit (i - 3)
         else self.inst.CR1.testBit i)) := by
  rw [Init_CR1]
  simp only [u32_testBit, Nat.testBit_lor, Nat.testBit_land, not32_testBit,
    setField_testBit _ _ _ _ _ (by norm_num : 3 < 32),
    setField_testBit _ _ _ _ _ (by norm_num : 2 < 32),
    setField_testBit _ _ _ _ _ (by norm_num : 1 < 32),
    SPI_CR1_MSTR, SPI_CR1_RXONLY, SPI_CR1_SSM, SPI_CR1_SSI, SPI_CR1_SPE, bit_testBit]
  by_cases h32 : i < 32
  · have hi : i = 0 ∨ i = 1 ∨ i = 2 ∨ i = 3 ∨ i = 4 ∨ i = 5 ∨ i = 6 ∨ i = 7 ∨ i = 8 ∨
        i = 9 ∨ i = 10 ∨ 11 ≤ i := by omega
    rcases hi with h | h | h | h | h | h | h | h | h | h | h | h
    all_goals first | (subst h; simp) | skip
    have e1 : ¬ (i = 2 ∨ i = 6 ∨ i = 8 ∨ i = 9) := by omega
    have e2 : ¬ i = 10 := by omega
    have e3 : ¬ i = 7 := by omega
    have e4 : ¬ i < 2 := by omega
    have e5 : ¬ i < 6 := by omega
    have e6 : ¬ (7 ≤ i ∧ i < 7 + 1) := by omega
    have e7 : ¬ (0 ≤ i ∧ i < 0 + 2) := by omega
    have e8 : ¬ (3 ≤ i ∧ i < 3 + 3) := by omega
    have e9 : ¬ 2 = i := by omega
    have e10 : ¬ 10 = i := by omega
    have e11 : ¬ 9 = i := by omega
    have e12 : ¬ 8 = i := by omega
    have e13 : ¬ 6 = i := by omega
    simp [h32, e1, e2, e3, e4, e5, e6, e7, e8, e9, e10, e11, e12, e13]
  · simp [h32]

theorem Init_CR2_testBit (self : HwSpi σ) (i : Nat) :
    (HwSpi.Init self).2.inst.CR2.testBit i =
      (decide (i < 32) &&
        (if i = 8 ∨ i = 9 ∨ i = 10 then true
         else if i = 12 then self.settings.threshold.val.testBit 0
         else self.inst.CR2.testBit i)) := by
  rw [Init_CR2]
  simp only [u32_testBit, Nat.testBit_lor, setField_testBit _ _ _ _ _ (by norm_num : 1 < 32),
    SPI_CR2_DS_0, SPI_CR2_DS_1, SPI_CR2_DS_2, bit_testBit]
  by_cases h32 : i < 32
  · have hi : i = 8 ∨ i = 9 ∨ i = 10 ∨ i = 12 ∨ (i ≠ 8 ∧ i ≠ 9 ∧ i ≠ 10 ∧ i ≠ 12) := by omega
    rcases hi with h | h | h | h | ⟨h8, h9, h10, h12⟩
    all_goals first | (subst h; simp) | skip
    have e1 : ¬ (i = 8 ∨ i = 9 ∨ i = 10) := by omega
    have e6 : ¬ (12 ≤ i ∧ i < 12 + 1) := by omega
    have e9 : ¬ 8 = i := by omega
    have e10 : ¬ 9 = i := by omega
    have e11 : ¬ 10 = i := by omega
    simp [h32, e1, h12, e6, e9, e10, e11]
  · simp [h32]

theorem ValidateSpi_true_iff (spi : HwSpi σ) :
    (ValidateSpi spi).1 = true ↔
      spi.settings.baudrate.val ≤ 7 ∧ spi.settings.busmode.val ≤ 3 ∧
        spi.settings.order.val ≤ 1 ∧ spi.settings.threshold.val ≤ 1 := by
  unfold ValidateSpi
  by_cases h1 : spi.settings.baudrate.val > 7
  · simp [h1]
  by_cases h2 : spi.settings.busmode.val > 3
  · simp [h1, h2]
  by_cases h3 : spi.settings.order.val > 1
  · simp [h1, h2, h3]
  by_cases h4 : spi.settings.threshold.val > 1
  · simp [h1, h2, h3, h4]
  simp only [h1, h2, h3, h4, if_false]
  simp
  omega


theorem Init_CR1_bit0 (self : HwSpi σ) :
    (HwSpi.Init self).2.inst.CR1.testBit 0 = self.settings.busmode.val.testBit 0 := by
  rw [Init_CR1_testBit]; rfl

theorem Init_CR1_bit1 (self : HwSpi σ) :
    (HwSpi.Init self).2.inst.CR1.testBit 1 = self.settings.busmode.val.testBit 1 := by
  rw [Init_CR1_testBit]; rfl

theorem Init_CR1_bit2 (self : HwSpi σ) : (HwSpi.Init self).2.inst.CR1.testBit 2 = true := by
  rw [Init_CR1_testBit]; rfl

theorem Init_CR1_bit3 (self : HwSpi σ) :
    (HwSpi.Init self).2.inst.CR1.testBit 3 = self.settings.baudrate.val.testBit 0 := by
  rw [Init_CR1_testBit]; rfl

theorem Init_CR1_bit4 (self : HwSpi σ) :
    (HwSpi.Init self).2.inst.CR1.testBit 4 = self.settings.baudrate.val.testBit 1 := by
  rw [Init_CR1_testBit]; rfl

theorem Init_CR1_bit5 (self : HwSpi σ) :
    (HwSpi.Init self).2.inst.CR1.testBit 5 = self.settings.baudrate.val.testBit 2 := by
  rw [Init_CR1_testBit]; rfl

theorem Init_CR1_bit6 (self : HwSpi σ) : (HwSpi.Init self).2.inst.CR1.testBit 6 = true := by
  rw [Init_CR1_testBit]; rfl

theorem Init_CR1_bit7 (self : HwSpi σ) :
    (HwSpi.Init self).2.inst.CR1.testBit 7 = self.settings.order.val.testBit 0 := by
  rw [Init_CR1_testBit]; rfl

theorem Init_CR1_bit8 (self : HwSpi σ) : (HwSpi.Init self).2.inst.CR1.testBit 8 = true := by
  rw [Init_CR1_testBit]; rfl

theorem Init_CR1_bit9 (self : HwSpi σ) : (HwSpi.Init self).2.inst.CR1.testBit 9 = true := by
  rw [Init_CR1_testBit]; rfl

theorem Init_CR1_bit10 (self : HwSpi σ) : (HwSpi.Init self).2.inst.CR1.testBit 10 = false := by
  rw [Init_CR1_testBit]; rfl

theorem Init_CR2_bit12 (self : HwSpi σ) :
    (HwSpi.Init self).2.inst.CR2.testBit 12 = self.settings.threshold.val.testBit 0 := by
  rw [Init_CR2_testBit]; rfl

/-! ## Validation and initialisation -/

/-- C7: `ValidateSpi` accepts the settings exactly when the four ordinals
satisfy `baudrate ≤ 7`, `busmode ≤ 3`, `order ≤ 1` and `threshold ≤ 1`; a
baud-rate ordinal 7 passes and 8 fails; the call leaves the driver object, its
settings and its register block (log of accesses included) as they were. -/
theorem ValidateSpi_accepts_iff_in_range (spi : HwSpi σ) :
    ((ValidateSpi spi).1 = true ↔
        spi.settings.baudrate.val ≤ 7 ∧ spi.settings.busmode.val ≤ 3 ∧
          spi.settings.order.val ≤ 1 ∧ spi.settings.threshold.val ≤ 1) ∧
      (ValidateSpi { spi with settings := ⟨7, 0, 0, 0⟩ }).1 = true ∧
      (ValidateSpi { spi with settings := ⟨8, 0, 0, 0⟩ }).1 = false ∧
      (ValidateSpi spi).2 = spi := by
  refine ⟨ValidateSpi_true_iff spi, rfl, rfl, ?_⟩
  unfold ValidateSpi
  split_ifs <;> rfl

/-- C5: for settings accepted by `ValidateSpi` and any 32-bit prior `CR1`,
`HwSpi::Init` returns true and leaves `CR1` with MSTR (bit 2) set, RXONLY
(bit 10) clear, bits 5:3 equal to the baud-rate ordinal, bits 1:0 equal to the
bus-mode ordinal (bit 1 is CPOL and bit 0 is CPHA of the `MODE1..MODE4`
comments), bit 7 equal to the bit-order ordinal, SSM, SSI and SPE (bits 9, 8,
6) set and every bit from 11 upwards unchanged; `CR2` bit 12 equals the
receive-threshold ordinal. -/
theorem Init_configures_registers (self : HwSpi σ)
    (hvalid : (ValidateSpi self).1 = true) (hcr1 : self.inst.CR1 < 2 ^ 32) :
    (HwSpi.Init self).1 = true ∧
      (HwSpi.Init self).2.inst.CR1.testBit 2 = true ∧
      (HwSpi.Init self).2.inst.CR1.testBit 10 = false ∧
      ((HwSpi.Init self).2.inst.CR1 >>> 3) % 2 ^ 3 = self.settings.baudrate.val ∧
      ((HwSpi.Init self).2.inst.CR1 >>> 0) % 2 ^ 2 = self.settings.busmode.val ∧
      (HwSpi.Init self).2.inst.CR1.testBit 1 =
        decide (self.settings.busmode = SpiBusMode.MODE3 ∨
          self.settings.busmode = SpiBusMode.MODE4) ∧
      (HwSpi.Init self).2.inst.CR1.testBit 0 =
        decide (self.settings.busmode = SpiBusMode.MODE2 ∨
          self.settings.busmode = SpiBusMode.MODE4) ∧
      ((HwSpi.Init self).2.inst.CR1 >>> 7) % 2 ^ 1 = self.settings.order.val ∧
      (HwSpi.Init self).2.inst.CR1.testBit 9 = true ∧
      (HwSpi.Init self).2.inst.CR1.testBit 8 = true ∧
      (HwSpi.Init self).2.inst.CR1.testBit 6 = true ∧
      (∀ i, 11 ≤ i →
        (HwSpi.Init self).2.inst.CR1.testBit i = self.inst.CR1.testBit i) ∧
      ((HwSpi.Init self).2.inst.CR2 >>> 12) % 2 ^ 1 = self.settings.threshold.val := by
  obtain ⟨hb, hm, ho, ht⟩ := (ValidateSpi_true_iff self).1 hvalid
  have hmode : self.settings.busmode = 0 ∨ self.settings.busmode = 1 ∨
      self.settings.busmode = 2 ∨ self.settings.busmode = 3 := by
    have : self.settings.busmode.val = 0 ∨ self.settings.busmode.val = 1 ∨
        self.settings.busmode.val = 2 ∨ self.settings.busmode.val = 3 := by omega
    rcases this with h | h | h | h
    · exact Or.inl (Fin.ext h)
    · exact Or.inr (Or.inl (Fin.ext h))
    · exact Or.inr (Or.inr (Or.inl (Fin.ext h)))
    · exact Or.inr (Or.inr (Or.inr (Fin.ext h)))
  refine ⟨rfl, Init_CR1_bit2 self, Init_CR1_bit10 self, ?_, ?_, ?_, ?_, ?_,
    Init_CR1_bit9 self, Init_CR1_bit8 self, Init_CR1_bit6 self, ?_, ?_⟩
  · apply field_eq _ _ _ _ (by omega)
    intro j hj
    have hj3 : j = 0 ∨ j = 1 ∨ j = 2 := by omega
    rcases hj3 with h | h | h <;> subst h
    · exact Init_CR1_bit3 self
    · exact Init_CR1_bit4 self
    · exact Init_CR1_bit5 self
  · apply field_eq _ _ _ _ (by omega)
    intro j hj
    have hj2 : j = 0 ∨ j = 1 := by omega
    rcases hj2 with h | h <;> subst h
    · exact Init_CR1_bit0 self
    · exact Init_CR1_bit1 self
  · rw [Init_CR1_bit1]
    rcases hmode with h | h | h | h <;> rw [h] <;> decide
  · rw [Init_CR1_bit0]
    rcases hmode with h | h | h | h <;> rw [h] <;> decide
  · apply field_eq _ _ _ _ (by omega)
    intro j hj
    have hj1 : j = 0 := by omega
    subst hj1
    exact Init_CR1_bit7 self
  · intro i hi
    rw [Init_CR1_testBit]
    by_cases h32 : i < 32
    · have e1 : ¬ (i = 2 ∨ i = 6 ∨ i = 8 ∨ i = 9) := by omega
      have e2 : ¬ i = 10 := by omega
      have e3 : ¬ i = 7 := by omega
      have e4 : ¬ i < 2 := by omega
      have e5 : ¬ i < 6 := by omega
      simp [h32, e1, e2, e3, e4, e5]
    · have : self.inst.CR1 < 2 ^ i :=
        lt_of_lt_of_le hcr1 (Nat.pow_le_pow_right (by norm_num) (by omega))
      simp [h32, Nat.testBit_lt_two_pow this]
  · apply field_eq _ _ _ _ (by omega)
    intro j hj
    have hj1 : j = 0 := by omega
    subst hj1
    exact Init_CR2_bit12 self

/-- Witness of C5 at the settings of the board support package (`FPCLK_16`,
`MODE1`, `MSB`, `FIFO_8bit`) and `CR1 = 0xFFFF`. -/
theorem Init_configures_registers_witness :
    (ValidateSpi (⟨⟨0xFFFF, 0x0700, (), []⟩, ⟨3, 0, 0, 1⟩⟩ : HwSpi Unit)).1 = true ∧
      (0xFFFF : Nat) < 2 ^ 32 ∧
      (HwSpi.Init (⟨⟨0xFFFF, 0x0700, (), []⟩, ⟨3, 0, 0, 1⟩⟩ : HwSpi Unit)).2.inst.CR1
        = 0xFB5C ∧
      (HwSpi.Init (⟨⟨0xFFFF, 0x0700, (), []⟩, ⟨3, 0, 0, 1⟩⟩ : HwSpi Unit)).2.inst.CR1.testBit 2
        = true :=
  ⟨by decide, by decide, by decide,
    (Init_configures_registers
      (⟨⟨0xFFFF, 0x0700, (), []⟩, ⟨3, 0, 0, 1⟩⟩ : HwSpi Unit) (by decide) (by decide)).2.1⟩

/-- C6 fails on the code: with `CR2 = 0x0800` before the call (data size
`0b1000`, 9 bits), `HwSpi::Init` leaves `DS[3:0] = 0b1111` (16 bits) and not
`0b0111`, because `CR2 |= DS_0 | DS_1 | DS_2` never clears bit 11. -/
theorem Init_keeps_DS3_set :
    ((HwSpi.Init (⟨⟨0, 0x0800, (), []⟩, ⟨3, 0, 0, 1⟩⟩ : HwSpi Unit)).2.inst.CR2 >>> 8)
        % 2 ^ 4 = 0b1111 ∧
      ((HwSpi.Init (⟨⟨0, 0x0800, (), []⟩, ⟨3, 0, 0, 1⟩⟩ : HwSpi Unit)).2.inst.CR2 >>> 8)
        % 2 ^ 4 ≠ 0b0111 := by
  decide

/-! ## Polling loops -/

theorem drLog_append_single (l : List Access) (a : Access) :
    drLog (l ++ [a]) = drLog l ++ (if isDR a then [a] else []) := by
  unfold drLog
  rw [List.filter_append]
  by_cases h : isDR a = true <;> simp [List.filter, h]

theorem readSR_drLog (m : Mock σ) (s : SPI_TypeDef σ) :
    drLog (s.readSR m).2.log = drLog s.log := by
  show drLog (s.log ++ [Access.read Reg.SR (m.readSR s.hw).1]) = _
  rw [drLog_append_single]
  simp [isDR]

theorem waitSet_drLog (m : Mock σ) (flag : Nat) :
    ∀ (fuel : Nat) (s s1 : SPI_TypeDef σ),
      waitSet m flag fuel s = some s1 → drLog s1.log = drLog s.log := by
  intro fuel
  induction fuel with
  | zero => intro s s1 h; simp [waitSet] at h
  | succ n ih =>
    intro s s1 h
    unfold waitSet at h
    by_cases hf : (s.readSR m).1 &&& flag ≠ 0
    · rw [if_pos hf] at h
      cases h
      exact readSR_drLog m s
    · rw [if_neg hf] at h
      rw [ih _ _ h, readSR_drLog]

theorem waitClear_drLog (m : Mock σ) (flag : Nat) :
    ∀ (fuel : Nat) (s s1 : SPI_TypeDef σ),
      waitClear m flag fuel s = some s1 → drLog s1.log = drLog s.log := by
  intro fuel
  induction fuel with
  | zero => intro s s1 h; simp [waitClear] at h
  | succ n ih =>
    intro s s1 h
    unfold waitClear at h
    by_cases hf : (s.readSR m).1 &&& flag ≠ 0
    · rw [if_pos hf] at h
      rw [ih _ _ h, readSR_drLog]
    · rw [if_neg hf] at h
      cases h
      exact readSR_drLog m s

/-- A flag that is set at some poll makes the waiting loop end, with one and
the same state for every large enough bound. -/
theorem waitSet_total (m : Mock σ) (flag : Nat) :
    ∀ (k : Nat) (s : SPI_TypeDef σ), pollSR m k s.hw &&& flag ≠ 0 →
      ∃ fuel0 s1, ∀ fuel, fuel0 ≤ fuel → waitSet m flag fuel s = some s1 := by
  intro k
  induction k with
  | zero =>
    intro s h
    refine ⟨1, (s.readSR m).2, ?_⟩
    intro fuel hf
    obtain ⟨n, rfl⟩ : ∃ n, fuel = n + 1 := ⟨fuel - 1, by omega⟩
    have h1 : (s.readSR m).1 &&& flag ≠ 0 := h
    show (if (s.readSR m).1 &&& flag ≠ 0 then some (s.readSR m).2
      else waitSet m flag n (s.readSR m).2) = _
    rw [if_pos h1]
  | succ k ih =>
    intro s h
    by_cases h1 : (s.readSR m).1 &&& flag ≠ 0
    · refine ⟨1, (s.readSR m).2, ?_⟩
      intro fuel hf
      obtain ⟨n, rfl⟩ : ∃ n, fuel = n + 1 := ⟨fuel - 1, by omega⟩
      show (if (s.readSR m).1 &&& flag ≠ 0 then some (s.readSR m).2
        else waitSet m flag n (s.readSR m).2) = _
      rw [if_pos h1]
    · have h2 : pollSR m k (s.readSR m).2.hw &&& flag ≠ 0 := h
      obtain ⟨f0, s1, hs1⟩ := ih _ h2
      refine ⟨f0 + 1, s1, ?_⟩
      intro fuel hf
      obtain ⟨n, rfl⟩ : ∃ n, fuel = n + 1 := ⟨fuel - 1, by omega⟩
      show (if (s.readSR m).1 &&& flag ≠ 0 then some (s.readSR m).2
        else waitSet m flag n (s.readSR m).2) = _
      rw [if_neg h1]
      exact hs1 n (by omega)

/-- A flag that is clear at some poll makes the waiting loop end, with one and
the same state for every large enough bound. -/
theorem waitClear_total (m : Mock σ) (flag : Nat) :
    ∀ (k : Nat) (s : SPI_TypeDef σ), pollSR m k s.hw &&& flag = 0 →
      ∃ fuel0 s1, ∀ fuel, fuel0 ≤ fuel → waitClear m flag fuel s = some s1 := by
  intro k
  induction k with
  | zero =>
    intro s h
    refine ⟨1, (s.readSR m).2, ?_⟩
    intro fuel hf
    obtain ⟨n, rfl⟩ : ∃ n, fuel = n + 1 := ⟨fuel - 1, by omega⟩
    have h1 : ¬ ((s.readSR m).1 &&& flag ≠ 0) := fun hne => hne h
    show (if (s.readSR m).1 &&& flag ≠ 0 then waitClear m flag n (s.readSR m).2
      else some (s.readSR m).2) = _
    rw [if_neg h1]
  | succ k ih =>
    intro s h
    by_cases h1 : (s.readSR m).1 &&& flag ≠ 0
    · have h2 : pollSR m k (s.readSR m).2.hw &&& flag = 0 := h
      obtain ⟨f0, s1, hs1⟩ := ih _ h2
      refine ⟨f0 + 1, s1, ?_⟩
      intro fuel hf
      obtain ⟨n, rfl⟩ : ∃ n, fuel = n + 1 := ⟨fuel - 1, by omega⟩
      show (if (s.readSR m).1 &&& flag ≠ 0 then waitClear m flag n (s.readSR m).2
        else some (s.readSR m).2) = _
      rw [if_pos h1]
      exact hs1 n (by omega)
    · refine ⟨1, (s.readSR m).2, ?_⟩
      intro fuel hf
      obtain ⟨n, rfl⟩ : ∃ n, fuel = n + 1 := ⟨fuel - 1, by omega⟩
      show (if (s.readSR m).1 &&& flag ≠ 0 then waitClear m flag n (s.readSR m).2
        else some (s.readSR m).2) = _
      rw [if_neg h1]


/-! ## The byte-exchange loops -/

theorem writeDR_drLog (m : Mock σ) (b : Byte) (s : SPI_TypeDef σ) :
    drLog (s.writeDR m b).log = drLog s.log ++ [Access.write Reg.DR b.val] := by
  show drLog (s.log ++ [Access.write Reg.DR b.val]) = _
  rw [drLog_append_single]
  simp [isDR]

theorem readDR_drLog (m : Mock σ) (s : SPI_TypeDef σ) :
    drLog (s.readDR m).2.log = drLog s.log ++ [Access.read Reg.DR (s.readDR m).1.val] := by
  show drLog (s.log ++ [Access.read Reg.DR (u8 (m.readDR s.hw).1)]) = _
  rw [drLog_append_single]
  simp [isDR, SPI_TypeDef.readDR]

theorem Buffer.set_same (buf : Buffer) (i : Nat) (b : Byte) : (buf.set i b) i = b := by
  simp [Buffer.set]

theorem Buffer.set_other (buf : Buffer) (i j : Nat) (b : Byte) (h : j ≠ i) :
    (buf.set i b) j = buf j := by
  simp [Buffer.set, h]

/-- What a finished run of the loop of `Transfer` has done: the data register
saw the `k` exchanges in order, the bytes loaded are in the receive buffer,
and the buffer is unchanged outside `i .. i + k - 1`. -/
theorem transferLoop_shape (m : Mock σ) (fuel : Nat) (tx : Buffer) :
    ∀ (k i : Nat) (s : SPI_TypeDef σ) (rx : Buffer) (s1 : SPI_TypeDef σ) (rx1 : Buffer),
      transferLoop m fuel tx k i s rx = some (s1, rx1) →
        drLog s1.log = drLog s.log ++ exchanges tx rx1 i k ∧
          ∀ j, (j < i ∨ i + k ≤ j) → rx1 j = rx j := by
  intro k
  induction k with
  | zero =>
    intro i s rx s1 rx1 h
    simp only [transferLoop, Option.some.injEq, Prod.mk.injEq] at h
    obtain ⟨rfl, rfl⟩ := h
    simp [exchanges]
  | succ k ih =>
    intro i s rx s1 rx1 h
    cases h1 : waitSet m SPI_SR_TXE fuel s with
    | none => simp [transferLoop, h1] at h
    | some sa =>
      cases h2 : waitSet m SPI_SR_RXNE fuel (sa.writeDR m (tx i)) with
      | none => simp [transferLoop, h1, h2] at h
      | some sb =>
        simp only [transferLoop, h1, h2] at h
        obtain ⟨hlog, hrx⟩ := ih _ _ _ _ _ h
        have hi : rx1 i = (sb.readDR m).1 := by
          rw [hrx i (Or.inl (Nat.lt_succ_self i)), Buffer.set_same]
        refine ⟨?_, ?_⟩
        · rw [hlog, readDR_drLog, waitSet_drLog m _ _ _ _ h2, writeDR_drLog,
            waitSet_drLog m _ _ _ _ h1]
          simp [exchanges, hi]
        · intro j hj
          have hne : j ≠ i := by omega
          rw [hrx j (by omega), Buffer.set_other _ _ _ _ hne]

/-- With `TXE` coming up from every state and `RXNE` coming up after every
store to `DR`, the loop of `Transfer` ends, with one and the same result for
every large enough bound on the polls. -/
theorem transferLoop_total (m : Mock σ) (tx : Buffer)
    (hTXE : ∀ h, ∃ k, pollSR m k h &&& SPI_SR_TXE ≠ 0)
    (hRXNE : ∀ h (b : Byte), ∃ k, pollSR m k (m.writeDR b.val h) &&& SPI_SR_RXNE ≠ 0) :
    ∀ (k i : Nat) (s : SPI_TypeDef σ) (rx : Buffer),
      ∃ fuel0 r, ∀ fuel, fuel0 ≤ fuel → transferLoop m fuel tx k i s rx = some r := by
  intro k
  induction k with
  | zero =>
    intro i s rx
    exact ⟨0, (s, rx), fun fuel _ => rfl⟩
  | succ k ih =>
    intro i s rx
    obtain ⟨k1, hk1⟩ := hTXE s.hw
    obtain ⟨f1, sa, hsa⟩ := waitSet_total m SPI_SR_TXE k1 s hk1
    obtain ⟨k2, hk2⟩ := hRXNE sa.hw (tx i)
    obtain ⟨f2, sb, hsb⟩ := waitSet_total m SPI_SR_RXNE k2 (sa.writeDR m (tx i)) hk2
    obtain ⟨f3, r, hr⟩ := ih (i + 1) (sb.readDR m).2 (rx.set i (sb.readDR m).1)
    refine ⟨max f1 (max f2 f3), r, ?_⟩
    intro fuel hf
    have e1 := hsa fuel (le_trans (le_max_left _ _) hf)
    have e2 := hsb fuel (le_trans (le_trans (le_max_left _ _) (le_max_right _ _)) hf)
    have e3 := hr fuel (le_trans (le_trans (le_max_right _ _) (le_max_right _ _)) hf)
    simp only [transferLoop, e1, e2, e3]

theorem readLoop_eq_transferLoop (m : Mock σ) (fuel : Nat) :
    ∀ (k i : Nat) (s : SPI_TypeDef σ) (rx : Buffer),
      readLoop m fuel k i s rx = transferLoop m fuel (fun _ => 0) k i s rx := by
  intro k
  induction k with
  | zero => intro i s rx; rfl
  | succ k ih =>
    intro i s rx
    cases h1 : waitSet m SPI_SR_TXE fuel s with
    | none => simp [readLoop, transferLoop, h1]
    | some sa =>
      cases h2 : waitSet m SPI_SR_RXNE fuel (sa.writeDR m 0) with
      | none => simp [readLoop, transferLoop, h1, h2]
      | some sb => simp only [readLoop, transferLoop, h1, h2, ih]

theorem writeLoop_eq_transferLoop (m : Mock σ) (fuel : Nat) (tx : Buffer) :
    ∀ (k i : Nat) (s : SPI_TypeDef σ) (rx : Buffer),
      writeLoop m fuel tx k i s = (transferLoop m fuel tx k i s rx).map Prod.fst := by
  intro k
  induction k with
  | zero => intro i s rx; rfl
  | succ k ih =>
    intro i s rx
    cases h1 : waitSet m SPI_SR_TXE fuel s with
    | none => simp [writeLoop, transferLoop, h1]
    | some sa =>
      cases h2 : waitSet m SPI_SR_RXNE fuel (sa.writeDR m (tx i)) with
      | none => simp [writeLoop, transferLoop, h1, h2]
      | some sb => simp only [writeLoop, transferLoop, h1, h2, ih _ _ (rx.set i (sb.readDR m).1)]


/-! ## The guard of the three operations -/

theorem notReady_of_ready (m : Mock σ) (s : SPI_TypeDef σ)
    (hSPE : s.CR1 &&& SPI_CR1_SPE ≠ 0)
    (hidle : (m.readSR s.hw).1 &&& SPI_SR_BSY = 0) :
    notReady m s = (false, ((s.load Reg.CR1).2.readSR m).2) := by
  have h1 : ¬ ((s.load Reg.CR1).1 &&& SPI_CR1_SPE = 0) := hSPE
  have h2 : ((s.load Reg.CR1).2.readSR m).1 &&& SPI_SR_BSY = 0 := hidle
  unfold notReady
  simp only [h1, if_false, h2]
  simp

theorem notReady_of_blocked (m : Mock σ) (s : SPI_TypeDef σ)
    (h : s.CR1 &&& SPI_CR1_SPE = 0 ∨ (m.readSR s.hw).1 &&& SPI_SR_BSY ≠ 0) :
    (notReady m s).1 = true ∧
      (notReady m s).2.CR1 = s.CR1 ∧ (notReady m s).2.CR2 = s.CR2 ∧
      (((notReady m s).2.hw = s.hw ∧
          (notReady m s).2.log = s.log ++ [Access.read Reg.CR1 s.CR1]) ∨
        ((notReady m s).2.hw = (m.readSR s.hw).2 ∧
          (notReady m s).2.log =
            s.log ++ [Access.read Reg.CR1 s.CR1, Access.read Reg.SR (m.readSR s.hw).1])) := by
  by_cases h1 : (s.load Reg.CR1).1 &&& SPI_CR1_SPE = 0
  · have e : notReady m s = (true, (s.load Reg.CR1).2) := by
      unfold notReady
      simp only [h1, if_true]
    rw [e]
    exact ⟨rfl, rfl, rfl, Or.inl ⟨rfl, rfl⟩⟩
  · have h2 : ((s.load Reg.CR1).2.readSR m).1 &&& SPI_SR_BSY ≠ 0 := by
      rcases h with h | h
      · exact absurd h h1
      · exact h
    have e : notReady m s = (true, ((s.load Reg.CR1).2.readSR m).2) := by
      unfold notReady
      simp only [h1, if_false]
      simp [h2]
    rw [e]
    refine ⟨rfl, rfl, rfl, Or.inr ⟨rfl, ?_⟩⟩
    show (s.log ++ [Access.read Reg.CR1 s.CR1]) ++ [Access.read Reg.SR (m.readSR s.hw).1] = _
    simp

/-! ## Transfers -/

/-- C1: on a peripheral that is enabled and idle, whose `TXE` comes up after
finitely many polls from every state, whose `RXNE` comes up after finitely
many polls once a byte was stored to `DR`, and whose `BSY` goes down after
finitely many polls, `Transfer(tx, rx, N)` returns true (for every bound on
the polls from some bound on, with one and the same final state); the data
register then saw exactly the stores of `tx[0] .. tx[N-1]` in this order,
each followed by exactly one load, and the byte of the `i`-th load is `rx[i]`;
the receive buffer is unchanged from index `N` on. -/
theorem Transfer_exchanges_in_order (m : Mock σ) (self : HwSpi σ) (tx rx : Buffer) (N : Nat)
    (hSPE : self.inst.CR1 &&& SPI_CR1_SPE ≠ 0)
    (hidle : (m.readSR self.inst.hw).1 &&& SPI_SR_BSY = 0)
    (hTXE : ∀ h, ∃ k, pollSR m k h &&& SPI_SR_TXE ≠ 0)
    (hRXNE : ∀ h (b : Byte), ∃ k, pollSR m k (m.writeDR b.val h) &&& SPI_SR_RXNE ≠ 0)
    (hBSY : ∀ h, ∃ k, pollSR m k h &&& SPI_SR_BSY = 0) :
    ∃ fuel0 self1 rx1,
      (∀ fuel, fuel0 ≤ fuel →
        HwSpi.Transfer m fuel self tx rx N = some (true, self1, rx1)) ∧
      drLog self1.inst.log = drLog self.inst.log ++ exchanges tx rx1 0 N ∧
      (∀ j, N ≤ j → rx1 j = rx j) := by
  have hg := notReady_of_ready m self.inst hSPE hidle
  obtain ⟨f1, ⟨s1, rx1⟩, hloop⟩ :=
    transferLoop_total m tx hTXE hRXNE N 0 ((self.inst.load Reg.CR1).2.readSR m).2 rx
  obtain ⟨k, hk⟩ := hBSY s1.hw
  obtain ⟨f2, s2, hwait⟩ := waitClear_total m SPI_SR_BSY k s1 hk
  obtain ⟨hlog, hrx⟩ := transferLoop_shape m f1 tx _ _ _ _ _ _ (hloop f1 (le_refl _))
  refine ⟨max f1 f2, { self with inst := s2 }, rx1, ?_, ?_, ?_⟩
  · intro fuel hf
    have e1 := hloop fuel (le_trans (le_max_left _ _) hf)
    have e2 := hwait fuel (le_trans (le_max_right _ _) hf)
    unfold HwSpi.Transfer
    simp only [hg, e1, e2]
    simp
  · show drLog s2.log = _
    rw [waitClear_drLog m _ _ _ _ (hwait f2 (le_refl _)), hlog, readSR_drLog]
    congr 1
    show drLog (self.inst.log ++ [Access.read Reg.CR1 self.inst.CR1]) = _
    rw [drLog_append_single]
    simp [isDR]
  · intro j hj
    exact hrx j (Or.inr (by omega))

/-- Witness of C1: the test application.  After `Init` the driver transfers
`9F 00 00 00 00 00` to the mocked flash, which answers a dummy byte and then
its identifier; the hypotheses hold for that mock, the transfer returns true
and `rx[1..5]` is the identifier `EF 40 18 12 34`. -/
theorem Transfer_exchanges_in_order_witness :
    ((HwSpi.Init bspSpi).2.inst.CR1 &&& SPI_CR1_SPE ≠ 0) ∧
      ((flashMock.readSR (HwSpi.Init bspSpi).2.inst.hw).1 &&& SPI_SR_BSY = 0) ∧
      (∀ h, ∃ k, pollSR flashMock k h &&& SPI_SR_TXE ≠ 0) ∧
      (∀ h (b : Byte), ∃ k,
        pollSR flashMock k (flashMock.writeDR b.val h) &&& SPI_SR_RXNE ≠ 0) ∧
      (∀ h, ∃ k, pollSR flashMock k h &&& SPI_SR_BSY = 0) ∧
      (∃ fuel0 self1 rx1,
        (∀ fuel, fuel0 ≤ fuel →
          HwSpi.Transfer flashMock fuel (HwSpi.Init bspSpi).2 tx_buf (fun _ => 0) 6
            = some (true, self1, rx1)) ∧
        drLog self1.inst.log =
          drLog (HwSpi.Init bspSpi).2.inst.log ++ exchanges tx_buf rx1 0 6 ∧
        (∀ j, 6 ≤ j → rx1 j = (fun _ => 0) j)) ∧
      (HwSpi.Transfer flashMock 2 (HwSpi.Init bspSpi).2 tx_buf (fun _ => 0) 6).map
          (fun r => (r.1, List.map (fun i => (r.2.2 i).val) [1, 2, 3, 4, 5]))
        = some (true, [0xEF, 0x40, 0x18, 0x12, 0x34]) := by
  have hTXE : ∀ h, ∃ k, pollSR flashMock k h &&& SPI_SR_TXE ≠ 0 := by
    intro h
    refine ⟨0, ?_⟩
    obtain ⟨sh, rn, rx, rp⟩ := h
    cases sh <;> cases rn <;> simp [pollSR, flashMock] <;> decide
  have hRXNE : ∀ h (b : Byte), ∃ k,
      pollSR flashMock k (flashMock.writeDR b.val h) &&& SPI_SR_RXNE ≠ 0 := by
    intro h b
    refine ⟨1, ?_⟩
    simp [pollSR, flashMock]
    decide
  have hBSY : ∀ h, ∃ k, pollSR flashMock k h &&& SPI_SR_BSY = 0 := by
    intro h
    refine ⟨1, ?_⟩
    obtain ⟨sh, rn, rx, rp⟩ := h
    cases rn <;> simp [pollSR, flashMock] <;> decide
  exact ⟨by decide, by decide, hTXE, hRXNE, hBSY,
    Transfer_exchanges_in_order flashMock (HwSpi.Init bspSpi).2 tx_buf (fun _ => 0) 6
      (by decide) (by decide) hTXE hRXNE hBSY,
    by decide⟩

/-- C2: when `SPE` is clear in `CR1` or `SR` reads with `BSY` set, `Read`,
`Write` and `Transfer` return false for every buffer, length and bound on the
polls; the log gains the load of `CR1` and at most the one load of `SR` of the
guard, so no access to `DR`; the mock has at most answered that load of `SR`;
`CR1`, `CR2` and the receive buffer are unchanged. -/
theorem not_ready_fails_without_DR_access (m : Mock σ) (fuel : Nat) (self : HwSpi σ)
    (tx rx : Buffer) (n : Nat)
    (h : self.inst.CR1 &&& SPI_CR1_SPE = 0 ∨
      (m.readSR self.inst.hw).1 &&& SPI_SR_BSY ≠ 0) :
    ∃ self1,
      HwSpi.Read m fuel self rx n = some (false, self1, rx) ∧
      HwSpi.Write m fuel self tx n = some (false, self1) ∧
      HwSpi.Transfer m fuel self tx rx n = some (false, self1, rx) ∧
      drLog self1.inst.log = drLog self.inst.log ∧
      self1.inst.CR1 = self.inst.CR1 ∧ self1.inst.CR2 = self.inst.CR2 ∧
      ((self1.inst.hw = self.inst.hw ∧
          self1.inst.log = self.inst.log ++ [Access.read Reg.CR1 self.inst.CR1]) ∨
        (self1.inst.hw = (m.readSR self.inst.hw).2 ∧
          self1.inst.log = self.inst.log ++
            [Access.read Reg.CR1 self.inst.CR1,
              Access.read Reg.SR (m.readSR self.inst.hw).1])) := by
  obtain ⟨hg, hc1, hc2, hlog⟩ := notReady_of_blocked m self.inst h
  refine ⟨{ self with inst := (notReady m self.inst).2 }, ?_, ?_, ?_, ?_, hc1, hc2, hlog⟩
  · unfold HwSpi.Read
    simp only [hg, if_true]
  · unfold HwSpi.Write
    simp only [hg, if_true]
  · unfold HwSpi.Transfer
    simp only [hg, if_true]
  · show drLog (notReady m self.inst).2.log = _
    rcases hlog with ⟨_, hl⟩ | ⟨_, hl⟩
    · rw [hl, drLog_append_single]
      simp [isDR]
    · rw [hl]
      simp [drLog, isDR]

/-- Witness of C2: before `Init` the peripheral of the test application is
disabled (`CR1 = 0`); the three operations fail on it. -/
theorem not_ready_fails_without_DR_access_witness :
    (bspSpi.inst.CR1 &&& SPI_CR1_SPE = 0 ∨
        (flashMock.readSR bspSpi.inst.hw).1 &&& SPI_SR_BSY ≠ 0) ∧
      ∃ self1,
        HwSpi.Read flashMock 5 bspSpi (fun _ => 0) 6 = some (false, self1, fun _ => 0) ∧
        HwSpi.Write flashMock 5 bspSpi tx_buf 6 = some (false, self1) ∧
        HwSpi.Transfer flashMock 5 bspSpi tx_buf (fun _ => 0) 6
          = some (false, self1, fun _ => 0) ∧
        drLog self1.inst.log = drLog bspSpi.inst.log ∧
        self1.inst.CR1 = bspSpi.inst.CR1 ∧ self1.inst.CR2 = bspSpi.inst.CR2 ∧
        ((self1.inst.hw = bspSpi.inst.hw ∧
            self1.inst.log = bspSpi.inst.log ++ [Access.read Reg.CR1 bspSpi.inst.CR1]) ∨
          (self1.inst.hw = (flashMock.readSR bspSpi.inst.hw).2 ∧
            self1.inst.log = bspSpi.inst.log ++
              [Access.read Reg.CR1 bspSpi.inst.CR1,
                Access.read Reg.SR (flashMock.readSR bspSpi.inst.hw).1])) :=
  ⟨Or.inl (by decide),
    not_ready_fails_without_DR_access flashMock 5 bspSpi tx_buf (fun _ => 0) 6
      (Or.inl (by decide))⟩

/-- C3: for every mock, state, receive buffer, length and bound on the polls,
`Read(rx, N)` and `Transfer(zeros, rx, N)` have the same outcome: both hang,
or both return the same boolean with the same register block (control
registers, state of the peripheral, log of all register accesses) and the
same receive buffer. -/
theorem Read_eq_Transfer_zeros (m : Mock σ) (fuel : Nat) (self : HwSpi σ) (rx : Buffer)
    (N : Nat) :
    HwSpi.Read m fuel self rx N = HwSpi.Transfer m fuel self (fun _ => 0) rx N := by
  simp only [HwSpi.Read, HwSpi.Transfer, readLoop_eq_transferLoop]

/-- C4: for every mock, state, transmit buffer, length, bound on the polls
and buffer `discard`, `Write(tx, N)` has the outcome of
`Transfer(tx, discard, N)` without the receive buffer: both hang, or both
return the same boolean and the same register block, whose log holds every
poll of `SR` and every store and load of `DR`. -/
theorem Write_eq_Transfer_discard (m : Mock σ) (fuel : Nat) (self : HwSpi σ)
    (tx discard : Buffer) (N : Nat) :
    HwSpi.Write m fuel self tx N =
      (HwSpi.Transfer m fuel self tx discard N).map (fun r => (r.1, r.2.1)) := by
  simp only [HwSpi.Write, HwSpi.Transfer]
  rw [writeLoop_eq_transferLoop m fuel tx N 0 _ discard]
  by_cases hg : (notReady m self.inst).1 = true
  · simp [hg]
  · simp only [hg, if_false]
    cases transferLoop m fuel tx N 0 (notReady m self.inst).2 discard with
    | none => rfl
    | some r =>
      obtain ⟨s, rx1⟩ := r
      simp only [Option.map_some']
      cases waitClear m SPI_SR_BSY fuel s <;> rfl

/-- C9: the parameterless `Read()`, `Write()` and `Transfer()` return false
and leave the driver with its register block as it was: `CR1`, `CR2`, the
state of the peripheral behind `SR` and `DR`, and the log of accesses. -/
theorem parameterless_stubs_fail (self : HwSpi σ) :
    HwSpi.ReadNoArg self = (false, self) ∧
      HwSpi.WriteNoArg self = (false, self) ∧
      HwSpi.TransferNoArg self = (false, self) ∧
      (HwSpi.ReadNoArg self).2.inst.log = self.inst.log ∧
      (HwSpi.WriteNoArg self).2.inst.log = self.inst.log ∧
      (HwSpi.TransferNoArg self).2.inst.log = self.inst.log :=
  ⟨rfl, rfl, rfl, rfl, rfl, rfl⟩

/-- C10 fails on the code: on an enabled, idle peripheral the zero-length
`Read(buf, 0)`, `Write(buf, 0)` and `Transfer(tx, rx, 0)` load `CR1`, poll
`SR` twice and return true, while the parameterless `Read()`, `Write()` and
`Transfer()` return false and access no register. -/
theorem parameterless_stubs_do_not_delegate :
    (HwSpi.Read flashMock 1 readySpi (fun _ => 0) 0).map (fun r => (r.1, r.2.1.inst.log))
        = some (true, [Access.read Reg.CR1 0x40, Access.read Reg.SR 2, Access.read Reg.SR 2]) ∧
      (HwSpi.Write flashMock 1 readySpi tx_buf 0).map (fun r => (r.1, r.2.inst.log))
        = some (true, [Access.read Reg.CR1 0x40, Access.read Reg.SR 2, Access.read Reg.SR 2]) ∧
      (HwSpi.Transfer flashMock 1 readySpi tx_buf (fun _ => 0) 0).map
          (fun r => (r.1, r.2.1.inst.log))
        = some (true, [Access.read Reg.CR1 0x40, Access.read Reg.SR 2, Access.read Reg.SR 2]) ∧
      ((HwSpi.ReadNoArg readySpi).1, (HwSpi.ReadNoArg readySpi).2.inst.log) = (false, []) ∧
      ((HwSpi.WriteNoArg readySpi).1, (HwSpi.WriteNoArg readySpi).2.inst.log) = (false, []) ∧
      ((HwSpi.TransferNoArg readySpi).1, (HwSpi.TransferNoArg readySpi).2.inst.log)
        = (false, []) := by
  decide

end Stml4

/-! ## Chip select -/

/-- C8: `ChipSelectEnable` drives the pin to logic 0 and `ChipSelectDisable`
to logic 1, whatever the level was; `ChipSelectEnable` followed by
`ChipSelectDisable` issues exactly the two writes 0 then 1 and leaves the pin
high. -/
theorem ChipSelect_strobe_low_then_high (cs : GpioChipSelect) :
    cs.ChipSelectEnable.cs_pin.level = false ∧
      cs.ChipSelectDisable.cs_pin.level = true ∧
      cs.ChipSelectEnable.ChipSelectDisable.cs_pin.writes =
        cs.cs_pin.writes ++ [false, true] ∧
      cs.ChipSelectEnable.ChipSelectDisable.cs_pin.level = true := by
  refine ⟨rfl, rfl, ?_, rfl⟩
  simp [GpioChipSelect.ChipSelectEnable, GpioChipSelect.ChipSelectDisable, Gpio.set]

end LBR
